import Mathlib

/-!
Shallow embedding of the shipcat core (manifest resolution engine and
reconciliation orchestrator) and proofs of the specification claims.

The embedding follows the Rust sources:
  - src/helm/parallel.rs        (reconcile, reconcile_worker)
  - shipcat_filebacked/src/manifest.rs       (ManifestSource, ManifestDefaults)
  - shipcat_filebacked/src/authorization.rs  (AuthorizationSource)
  - shipcat_filebacked/src/container/job.rs  (JobSource)

External collaborators that parallel.rs calls (cluster queries, helm apply,
rollout polling, notifications) are modelled as an explicit environment of
oracles, and observable side effects (file removal, diagnostic dumps,
notifications) are recorded in an effect trace.
-/

namespace Shipcat

/-- Error kinds used by the orchestrator, from the error-chain kinds matched
in src/helm/parallel.rs: MissingRollingVersion, ManifestVerifyFailure,
UpgradeTimeout, plus a generic kind for all other errors. -/
inductive ErrKind where
  | missingRollingVersion (svc : String)
  | manifestVerifyFailure (svc : String)
  | upgradeTimeout (svc : String) (waitSecs : Nat)
  | genericError (msg : String)
deriving DecidableEq, Repr

/-- Model of error-chain chain_err: the new kind becomes the outer kind of
the error (the cause is retained only for display, and the orchestrator
matches on the outer kind alone, so the cause is dropped here). -/
def chainErr (_cause : ErrKind) (kind : ErrKind) : ErrKind := kind

/-- Upgrade modes; diffOnly is the only one src/helm/parallel.rs compares
against, the other two are the apply modes named in the spec. -/
inductive UpgradeMode where
  | diffOnly
  | upgradeNoWait
  | upgradeWait
deriving DecidableEq, Repr

/-- Result data of one upgrade, from UpgradeData as consumed by parallel.rs
(name and mode are logged; construction itself is an external oracle). -/
structure UpgradeData where
  name : String
  version : String
  mode : UpgradeMode
deriving DecidableEq, Repr

/-- One job result sent over the completion channel by a reconcile worker. -/
abbrev JobResult := Except ErrKind (Option UpgradeData)

/-- Predicate distinguishing the batch-ignorable error kind. -/
def ErrKind.isMissingRollingVersion : ErrKind → Bool
  | .missingRollingVersion _ => true
  | _ => false

/-- The filter_map(Result::err) step of reconcile: the errors among the
collected job results, in channel order. -/
def collectErrors (results : List JobResult) : List ErrKind :=
  results.filterMap (fun r => match r with | .error e => some e | .ok _ => none)

/-- The final scan loop of reconcile: MissingRollingVersion errors are
downgraded to a warning and skipped; the first other error is returned. -/
def firstFatal : List ErrKind → Except ErrKind Unit
  | [] => .ok ()
  | e :: rest =>
    if e.isMissingRollingVersion then firstFatal rest else .error e

/-- Aggregation performed by reconcile in src/helm/parallel.rs over the
n_jobs results collected from the completion channel (the channel delivers
exactly one result per job; completion order is arbitrary). -/
def reconcileAggregate (results : List JobResult) : Except ErrKind Unit :=
  firstFatal (collectErrors results)

theorem firstFatal_ok_iff (errs : List ErrKind) :
    firstFatal errs = .ok () ↔ ∀ e ∈ errs, e.isMissingRollingVersion = true := by
  induction errs with
  | nil => simp [firstFatal]
  | cons e rest ih =>
    by_cases h : e.isMissingRollingVersion = true
    · simp [firstFatal, h, ih]
    · simp [firstFatal, h]

theorem firstFatal_first (pre : List ErrKind) (e : ErrKind) (post : List ErrKind)
    (hpre : ∀ x ∈ pre, x.isMissingRollingVersion = true)
    (he : e.isMissingRollingVersion = false) :
    firstFatal (pre ++ e :: post) = .error e := by
  induction pre with
  | nil => simp [firstFatal, he]
  | cons x rest ih =>
    have hx : x.isMissingRollingVersion = true := hpre x (by simp)
    have hrest : ∀ y ∈ rest, y.isMissingRollingVersion = true :=
      fun y hy => hpre y (by simp [hy])
    simp [firstFatal, hx, ih hrest]

theorem mem_collectErrors (results : List JobResult) (e : ErrKind) :
    e ∈ collectErrors results ↔ Except.error e ∈ results := by
  unfold collectErrors
  rw [List.mem_filterMap]
  constructor
  · rintro ⟨r, hr, hf⟩
    cases r with
    | error e0 =>
      simp only [Option.some.injEq] at hf
      rwa [hf] at hr
    | ok _ => simp at hf
  · intro hr
    exact ⟨Except.error e, hr, rfl⟩

/-- C1: reconcile waits for all jobs (the aggregate is a function of the
full list of collected job results) and returns success exactly when every
job either succeeded or failed with MissingRollingVersion; otherwise it
returns the first non-MissingRollingVersion error in scan order, with any
later fatal errors not reflected in the returned result. -/
theorem C1_reconcile_aggregation (results : List JobResult) :
    (reconcileAggregate results = .ok () ↔
      ∀ e : ErrKind, Except.error e ∈ results → e.isMissingRollingVersion = true) ∧
    (∀ pre e post, collectErrors results = pre ++ e :: post →
      (∀ x ∈ pre, x.isMissingRollingVersion = true) →
      e.isMissingRollingVersion = false →
      reconcileAggregate results = .error e) := by
  constructor
  · rw [reconcileAggregate, firstFatal_ok_iff]
    constructor
    · intro h e he
      exact h e ((mem_collectErrors results e).mpr he)
    · intro h e he
      exact h e ((mem_collectErrors results e).mp he)
  · intro pre e post hsplit hpre he
    rw [reconcileAggregate, hsplit]
    exact firstFatal_first pre e post hpre he

/-- Witness for C1 at a concrete batch: one success, one ignorable
MissingRollingVersion failure, one ApplyFailure-style fatal error and one
later timeout; the aggregate is the first fatal error, so the batch result
is the generic apply failure and the timeout is not reflected. -/
theorem C1_reconcile_aggregation_witness :
    reconcileAggregate
      [Except.ok none,
       Except.error (ErrKind.missingRollingVersion "billing"),
       Except.error (ErrKind.genericError "apply failed"),
       Except.error (ErrKind.upgradeTimeout "auth" 300)]
      = .error (ErrKind.genericError "apply failed") :=
  (C1_reconcile_aggregation
      [Except.ok none,
       Except.error (ErrKind.missingRollingVersion "billing"),
       Except.error (ErrKind.genericError "apply failed"),
       Except.error (ErrKind.upgradeTimeout "auth" 300)]).2
    [ErrKind.missingRollingVersion "billing"]
    (ErrKind.genericError "apply failed")
    [ErrKind.upgradeTimeout "auth" 300]
    (by decide) (by decide) (by decide)

/-- Service metadata, from shipcat_definitions structs as used by
ManifestSource::build_metadata (team reference plus back-fillable
support and notification contacts; other fields are not consulted by the
embedded code). -/
structure Metadata where
  team : String
  support : Option String
  notifications : Option String
deriving DecidableEq, Repr

/-- Team entry of the global shipcat.conf, as consulted by
coalesce_namespace and build_metadata: a name, an optional namespace
(field ns here, since namespace is a reserved word), and optional default
contacts. -/
structure Team where
  name : String
  ns : Option String
  support : Option String
  notifications : Option String
deriving DecidableEq, Repr

/-- The slice of the global Config consulted by the embedded code: the
team list. -/
structure Config where
  teams : List Team
deriving DecidableEq, Repr

/-- The slice of a Region consulted by the embedded code: name,
environment and the region namespace (ns). -/
structure Region where
  name : String
  environment : String
  ns : String
deriving DecidableEq, Repr

/-- Modelled from the spec: the gateway (kong) configuration block. The
struct definition is not among the provided sources; per the spec it
carries a public exposure flag and identity-derived host data. -/
structure Kong where
  public : Bool
  host : Option String
deriving DecidableEq, Repr

/-- Modelled from the spec: Kong implicit derivation, a pure function of
(fragment, service name, region) filling in a host naming pattern when
none is given; it does not touch the public flag. -/
def Kong.implicits (k : Kong) (service : String) (reg : Region) (_hosts : List String) : Kong :=
  { k with host := match k.host with
                   | some h => some h
                   | none => some (service ++ "." ++ reg.name) }

/-- The fully resolved Manifest, modelled from the construction site in
ManifestSource::build (the Manifest struct itself is not among the
provided sources). Fields whose construction needs collaborators outside
the sources (configs templates, kafka, data handling, probes, workers and
similar payload blocks) are omitted; they are orthogonal to the claims
verified here. The namespace field is called ns. -/
structure Manifest where
  name : String
  publiclyAccessible : Bool
  external : Bool
  disabled : Bool
  regions : List String
  metadata : Option Metadata
  chart : Option String
  imageSize : Option Nat
  image : Option String
  version : Option String
  replicaCount : Option Nat
  env : List (String × String)
  kong : Option Kong
  region : String
  environment : String
  ns : String
deriving DecidableEq, Repr

/-! ## Reconcile worker (src/helm/parallel.rs, reconcile_worker)

The worker calls several collaborators that are outside the provided
sources (Manifest::completed, infer_fallback_version, Manifest::verify,
direct::values, UpgradeData::new, direct::upgrade, await_rollout_status,
kube::debug, handle_upgrade_notifies, estimate_wait_time). They are
modelled as an oracle environment; the control flow around them is the
faithful embedding of reconcile_worker. Observable side effects are
recorded in an effect trace. -/

/-- Observable side effects of one reconcile worker run. -/
inductive Effect where
  | removeFile (path : String)
  | clusterDebug
  | notify (success : Bool)
deriving DecidableEq, Repr

/-- Oracle environment for one reconcile worker run: the outcomes of the
external calls made by reconcile_worker, in the order the source makes
them. -/
structure WorkerEnv where
  completed : Except ErrKind Manifest
  inferFallback : Except ErrKind String
  verify : Manifest → Except ErrKind Unit
  values : Except ErrKind Unit
  upgradeData : Manifest → String → UpgradeMode → Bool → Except ErrKind (Option UpgradeData)
  upgrade : UpgradeData → Except ErrKind Unit
  awaitRollout : Except ErrKind Bool
  clusterDebug : Except ErrKind Unit
  estimateWait : Manifest → Nat

/-- The version and install/upgrade fallback resolution of
reconcile_worker (parallel.rs lines 76 to 90): a successful cluster query
yields (exists = true, running version); on a failed query a pinned
version yields an install, except that diff-only mode returns the
nothing-to-do outcome (none); with no pinned version either, the job
fails with the MissingRollingVersion kind chained onto the query error. -/
def resolveFallback (pinned : Option String) (cluster : Except ErrKind String)
    (mode : UpgradeMode) (svc : String) : Except ErrKind (Option (Bool × String)) :=
  match cluster with
  | .ok running => .ok (some (true, running))
  | .error e =>
    match pinned with
    | some v =>
      if mode = UpgradeMode.diffOnly then .ok none else .ok (some (false, v))
    | none => .error (chainErr e (ErrKind.missingRollingVersion svc))

/-- The version override of reconcile_worker (lines 94 to 96): the
fallback version is written into the manifest only when no version is
pinned. -/
def applyFallback (mf : Manifest) (fallback : String) : Manifest :=
  if mf.version.isNone then { mf with version := some fallback } else mf

/-- Embedding of reconcile_worker: returns the job result and the trace
of observable side effects. Mirrors the source control flow: complete the
manifest, resolve fallback version and install flag, override the version
when unpinned, verify, render values, build UpgradeData, upgrade, await
rollout, notify, and finally attempt removal of the temporary values
file; error paths return early exactly where the source does. -/
def reconcileWorker (env : WorkerEnv) (tmpmf : Manifest) (mode : UpgradeMode) :
    Except ErrKind (Option UpgradeData) × List Effect :=
  let svc := tmpmf.name
  match env.completed with
  | .error e => (.error e, [])
  | .ok mf0 =>
    match resolveFallback mf0.version env.inferFallback mode mf0.name with
    | .error e => (.error e, [])
    | .ok none => (.ok none, [])
    | .ok (some (ex, fallback)) =>
      let mf := applyFallback mf0 fallback
      match env.verify mf with
      | .error e => (.error (chainErr e (ErrKind.manifestVerifyFailure svc)), [])
      | .ok _ =>
        let hfile := svc ++ ".helm.gen.yml"
        match env.values with
        | .error e => (.error e, [])
        | .ok _ =>
          match env.upgradeData mf hfile mode ex with
          | .error e => (.error e, [])
          | .ok none => (.ok none, [Effect.removeFile hfile])
          | .ok (some udata) =>
            match env.upgrade udata with
            | .error e =>
              match env.clusterDebug with
              | .error de => (.error de, [])
              | .ok _ => (.error e, [Effect.clusterDebug])
            | .ok _ =>
              match env.awaitRollout with
              | .error e => (.error e, [])
              | .ok true =>
                (.ok (some udata), [Effect.notify true, Effect.removeFile hfile])
              | .ok false =>
                match env.clusterDebug with
                | .error de => (.error de, [])
                | .ok _ =>
                  (.error (ErrKind.upgradeTimeout mf.name (env.estimateWait mf)),
                   [Effect.clusterDebug, Effect.notify false])

/-- A concrete manifest fixture used to instantiate the worker theorems. -/
def mfFixture (v : Option String) : Manifest :=
  { name := "auth"
    publiclyAccessible := false
    external := false
    disabled := false
    regions := ["staging"]
    metadata := none
    chart := none
    imageSize := some 512
    image := some "registry/auth"
    version := v
    replicaCount := some 2
    env := []
    kong := none
    region := "staging"
    environment := "staging"
    ns := "apps" }

/-- C2: a pinned version survives fallback resolution untouched whatever
the cluster reports, the cluster query deciding only the install versus
upgrade flag; with no pinned version and a running version reported, that
running version becomes the deployed version and the operation is an
upgrade. -/
theorem C2_pinned_version_wins (mf : Manifest) (cluster : Except ErrKind String)
    (mode : UpgradeMode) (svc : String) :
    (∀ v, mf.version = some v →
      ∀ ex fb, resolveFallback mf.version cluster mode svc = .ok (some (ex, fb)) →
        (applyFallback mf fb).version = some v ∧ (ex = true ↔ ∃ r, cluster = .ok r)) ∧
    (mf.version = none → ∀ r, cluster = .ok r →
      resolveFallback mf.version cluster mode svc = .ok (some (true, r)) ∧
      (applyFallback mf r).version = some r) := by
  constructor
  · intro v hv ex fb hres
    refine ⟨by simp [applyFallback, hv], ?_⟩
    cases cluster with
    | ok r =>
      simp only [resolveFallback, Except.ok.injEq, Option.some.injEq, Prod.mk.injEq] at hres
      exact ⟨fun _ => ⟨r, rfl⟩, fun _ => hres.1.symm⟩
    | error e =>
      rw [hv] at hres
      rw [show resolveFallback (some v) (Except.error e) mode svc
            = if mode = UpgradeMode.diffOnly then Except.ok none
              else Except.ok (some (false, v)) from rfl] at hres
      split at hres
      · simp at hres
      · have h3 : (false, v) = (ex, fb) := Option.some.inj (Except.ok.inj hres)
        constructor
        · intro hex
          rw [hex] at h3
          exact absurd (congrArg Prod.fst h3) (by simp)
        · rintro ⟨r, hr⟩
          cases hr
  · intro hv r hr
    subst hr
    exact ⟨by simp [resolveFallback], by simp [applyFallback, hv]⟩

/-- Witness for C2: with pinned version 1.2.0 and the cluster reporting a
running 0.9.9, the resolved manifest keeps 1.2.0 and the job is an
upgrade. -/
theorem C2_pinned_version_wins_witness :
    (applyFallback (mfFixture (some "1.2.0")) "0.9.9").version = some "1.2.0" ∧
    (true = true ↔ ∃ r, (Except.ok "0.9.9" : Except ErrKind String) = .ok r) :=
  (C2_pinned_version_wins (mfFixture (some "1.2.0")) (.ok "0.9.9")
      UpgradeMode.upgradeWait "auth").1
    "1.2.0" rfl true "0.9.9" rfl

/-- Counterexample to C3 as stated: in diff-only mode an unresolvable job
(no running version found, no pinned version) still fails with
MissingRollingVersion rather than yielding the nothing-to-do success. -/
theorem C3_counterexample :
    resolveFallback none (Except.error (ErrKind.genericError "not deployed"))
        UpgradeMode.diffOnly "billing"
      = .error (ErrKind.missingRollingVersion "billing") ∧
    ¬ resolveFallback none (Except.error (ErrKind.genericError "not deployed"))
        UpgradeMode.diffOnly "billing"
      = .ok none := by
  constructor
  · rfl
  · intro h
    cases h

/-- C3 amended: when the cluster query finds no running version and no
version is pinned, the job fails with the distinct MissingRollingVersion
kind in every mode, including diff-only; the nothing-to-do diff-only
outcome applies instead to an install whose version is pinned; lifted to
the worker, an unresolvable job surfaces MissingRollingVersion as its
result. -/
theorem C3_missing_rolling_version (e : ErrKind) (pinned : Option String)
    (mode : UpgradeMode) (svc : String) (env : WorkerEnv) (tmpmf mf0 : Manifest) :
    (pinned = none →
      resolveFallback pinned (.error e) mode svc
        = .error (ErrKind.missingRollingVersion svc)) ∧
    (∀ v, pinned = some v →
      resolveFallback pinned (.error e) UpgradeMode.diffOnly svc = .ok none) ∧
    (env.completed = .ok mf0 → mf0.version = none → env.inferFallback = .error e →
      (reconcileWorker env tmpmf mode).1
        = .error (ErrKind.missingRollingVersion mf0.name)) := by
  refine ⟨?_, ?_, ?_⟩
  · intro hp
    subst hp
    rfl
  · intro v hp
    subst hp
    rfl
  · intro hc hv hi
    simp [reconcileWorker, hc, hi, hv, resolveFallback, chainErr]

/-- Oracle environment for an unresolvable job: the completed manifest
pins no version and the cluster query fails. -/
def envMissing : WorkerEnv :=
  { completed := .ok (mfFixture none)
    inferFallback := .error (ErrKind.genericError "not deployed")
    verify := fun _ => .ok ()
    values := .ok ()
    upgradeData := fun _ _ _ _ => .ok none
    upgrade := fun _ => .ok ()
    awaitRollout := .ok true
    clusterDebug := .ok ()
    estimateWait := fun _ => 300 }

/-- Witness for the amended C3 at concrete inputs. -/
theorem C3_missing_rolling_version_witness :
    resolveFallback none (.error (ErrKind.genericError "x"))
        UpgradeMode.upgradeWait "billing"
      = .error (ErrKind.missingRollingVersion "billing") ∧
    resolveFallback (some "1.0.0") (.error (ErrKind.genericError "x"))
        UpgradeMode.diffOnly "billing" = .ok none ∧
    (reconcileWorker envMissing (mfFixture none) UpgradeMode.upgradeWait).1
      = .error (ErrKind.missingRollingVersion "auth") :=
  ⟨(C3_missing_rolling_version (ErrKind.genericError "x") none
      UpgradeMode.upgradeWait "billing" envMissing (mfFixture none) (mfFixture none)).1 rfl,
   (C3_missing_rolling_version (ErrKind.genericError "x") (some "1.0.0")
      UpgradeMode.diffOnly "billing" envMissing (mfFixture none) (mfFixture none)).2.1
      "1.0.0" rfl,
   (C3_missing_rolling_version (ErrKind.genericError "not deployed") none
      UpgradeMode.upgradeWait "billing" envMissing (mfFixture none) (mfFixture none)).2.2
      rfl rfl rfl⟩

/-- Exhaustive case analysis of a worker run: every path ends in one of
six outcome shapes, and the temporary values file removal effect occurs
exactly on the success paths that rendered it. -/
theorem reconcileWorker_cases (env : WorkerEnv) (tmpmf : Manifest) (mode : UpgradeMode) :
    (∃ e, reconcileWorker env tmpmf mode = (.error e, [])) ∨
    (∃ e, reconcileWorker env tmpmf mode = (.error e, [Effect.clusterDebug])) ∨
    (∃ e, reconcileWorker env tmpmf mode
        = (.error e, [Effect.clusterDebug, Effect.notify false])) ∨
    (reconcileWorker env tmpmf mode = (.ok none, [])) ∨
    (reconcileWorker env tmpmf mode
        = (.ok none, [Effect.removeFile (tmpmf.name ++ ".helm.gen.yml")])) ∨
    (∃ u, reconcileWorker env tmpmf mode
        = (.ok (some u),
           [Effect.notify true, Effect.removeFile (tmpmf.name ++ ".helm.gen.yml")])) := by
  cases hc : env.completed with
  | error e =>
    simp only [reconcileWorker, hc]
    exact Or.inl ⟨e, rfl⟩
  | ok mf0 =>
  cases hr : resolveFallback mf0.version env.inferFallback mode mf0.name with
  | error e =>
    simp only [reconcileWorker, hc, hr]
    exact Or.inl ⟨e, rfl⟩
  | ok o =>
  cases o with
  | none =>
    simp only [reconcileWorker, hc, hr]
    exact Or.inr (Or.inr (Or.inr (Or.inl trivial)))
  | some p =>
  obtain ⟨ex, fallback⟩ := p
  cases hv : env.verify (applyFallback mf0 fallback) with
  | error e =>
    simp only [reconcileWorker, hc, hr, hv]
    exact Or.inl ⟨chainErr e (ErrKind.manifestVerifyFailure tmpmf.name), rfl⟩
  | ok u =>
  cases hval : env.values with
  | error e =>
    simp only [reconcileWorker, hc, hr, hv, hval]
    exact Or.inl ⟨e, rfl⟩
  | ok u2 =>
  cases hud : env.upgradeData (applyFallback mf0 fallback) (tmpmf.name ++ ".helm.gen.yml")
      mode ex with
  | error e =>
    simp only [reconcileWorker, hc, hr, hv, hval, hud]
    exact Or.inl ⟨e, rfl⟩
  | ok ud =>
  cases ud with
  | none =>
    simp only [reconcileWorker, hc, hr, hv, hval, hud]
    exact Or.inr (Or.inr (Or.inr (Or.inr (Or.inl trivial))))
  | some udata =>
  cases hup : env.upgrade udata with
  | error e =>
    cases hcd : env.clusterDebug with
    | error de =>
      simp only [reconcileWorker, hc, hr, hv, hval, hud, hup, hcd]
      exact Or.inl ⟨de, rfl⟩
    | ok u4 =>
      simp only [reconcileWorker, hc, hr, hv, hval, hud, hup, hcd]
      exact Or.inr (Or.inl ⟨e, rfl⟩)
  | ok u3 =>
  cases har : env.awaitRollout with
  | error e =>
    simp only [reconcileWorker, hc, hr, hv, hval, hud, hup, har]
    exact Or.inl ⟨e, rfl⟩
  | ok b =>
  cases b with
  | true =>
    simp only [reconcileWorker, hc, hr, hv, hval, hud, hup, har]
    exact Or.inr (Or.inr (Or.inr (Or.inr (Or.inr ⟨udata, rfl⟩))))
  | false =>
    cases hcd : env.clusterDebug with
    | error de =>
      simp only [reconcileWorker, hc, hr, hv, hval, hud, hup, har, hcd]
      exact Or.inl ⟨de, rfl⟩
    | ok u4 =>
      simp only [reconcileWorker, hc, hr, hv, hval, hud, hup, har, hcd]
      exact Or.inr (Or.inr (Or.inl
        ⟨ErrKind.upgradeTimeout (applyFallback mf0 fallback).name
          (env.estimateWait (applyFallback mf0 fallback)), rfl⟩))

/-- C8 amended: the temporary rendered-values artifact is removed only on
the success paths of the worker; whenever the worker returns an error
(apply failure, rollout timeout, or any earlier failure) it returns early
and the artifact is not removed, and every success outcome either removed
the artifact or never rendered it (the empty trace of the diff-only early
exit). -/
theorem C8_cleanup_only_on_success (env : WorkerEnv) (tmpmf : Manifest) (mode : UpgradeMode) :
    (∀ e, (reconcileWorker env tmpmf mode).1 = .error e →
      Effect.removeFile (tmpmf.name ++ ".helm.gen.yml") ∉ (reconcileWorker env tmpmf mode).2) ∧
    (∀ d, (reconcileWorker env tmpmf mode).1 = .ok d →
      Effect.removeFile (tmpmf.name ++ ".helm.gen.yml") ∈ (reconcileWorker env tmpmf mode).2 ∨
      (reconcileWorker env tmpmf mode).2 = []) := by
  rcases reconcileWorker_cases env tmpmf mode with
    ⟨e0, heq⟩ | ⟨e0, heq⟩ | ⟨e0, heq⟩ | heq | heq | ⟨u0, heq⟩ <;>
  · rw [heq]
    constructor <;> intro x hx <;> simp_all

/-- Oracle environment with a pinned-version manifest whose helm apply
call is rejected by the cluster. -/
def envApplyFail : WorkerEnv :=
  { completed := .ok (mfFixture (some "1.2.0"))
    inferFallback := .ok "1.1.0"
    verify := fun _ => .ok ()
    values := .ok ()
    upgradeData := fun mf _ m _ => .ok (some { name := mf.name, version := "1.2.0", mode := m })
    upgrade := fun _ => .error (ErrKind.genericError "apply failed")
    awaitRollout := .ok true
    clusterDebug := .ok ()
    estimateWait := fun _ => 300 }

/-- Oracle environment for a fully successful upgrade of the same
manifest. -/
def envUpgradeOk : WorkerEnv :=
  { completed := .ok (mfFixture (some "1.2.0"))
    inferFallback := .ok "1.1.0"
    verify := fun _ => .ok ()
    values := .ok ()
    upgradeData := fun mf _ m _ => .ok (some { name := mf.name, version := "1.2.0", mode := m })
    upgrade := fun _ => .ok ()
    awaitRollout := .ok true
    clusterDebug := .ok ()
    estimateWait := fun _ => 300 }

/-- Counterexample to C8 as stated: a job that reaches the upgrade stage
and fails at the apply call returns early, and the temporary values
artifact is not removed, contradicting removal regardless of outcome. -/
theorem C8_counterexample :
    (reconcileWorker envApplyFail (mfFixture (some "1.2.0")) UpgradeMode.upgradeWait).1
      = .error (ErrKind.genericError "apply failed") ∧
    Effect.removeFile "auth.helm.gen.yml" ∉
      (reconcileWorker envApplyFail (mfFixture (some "1.2.0")) UpgradeMode.upgradeWait).2 := by
  constructor
  · rfl
  · decide

/-- Witness for the amended C8: on the failed-apply run the artifact is
not removed, and on the successful run of the same manifest it is. -/
theorem C8_cleanup_only_on_success_witness :
    Effect.removeFile ((mfFixture (some "1.2.0")).name ++ ".helm.gen.yml") ∉
      (reconcileWorker envApplyFail (mfFixture (some "1.2.0")) UpgradeMode.upgradeWait).2 ∧
    (Effect.removeFile ((mfFixture (some "1.2.0")).name ++ ".helm.gen.yml") ∈
      (reconcileWorker envUpgradeOk (mfFixture (some "1.2.0")) UpgradeMode.upgradeWait).2 ∨
     (reconcileWorker envUpgradeOk (mfFixture (some "1.2.0")) UpgradeMode.upgradeWait).2 = []) :=
  ⟨(C8_cleanup_only_on_success envApplyFail (mfFixture (some "1.2.0"))
      UpgradeMode.upgradeWait).1 (ErrKind.genericError "apply failed") rfl,
   (C8_cleanup_only_on_success envUpgradeOk (mfFixture (some "1.2.0"))
      UpgradeMode.upgradeWait).2
     (some { name := "auth", version := "1.2.0", mode := UpgradeMode.upgradeWait }) rfl⟩

/-! ## Manifest resolution engine (shipcat_filebacked/src/manifest.rs) -/

/-- Global and regional manifest defaults, from ManifestDefaults in
shipcat_filebacked/src/manifest.rs (image_prefix is called imagePref
here; the BTreeMap of environment variables is modelled as an
association list read through key lookup). -/
structure ManifestDefaults where
  imagePref : Option String
  chart : Option String
  replicaCount : Option Nat
  env : List (String × String)
deriving DecidableEq, Repr

/-- Modelled from the spec: the key-wise union of two maps in which the
incoming map wins on key collision (the derive(Merge) implementation for
mapping-valued fields is not among the provided sources; its behaviour is
pinned by the merge unit test in shipcat_filebacked/src/manifest.rs). -/
def mergeEnv (a b : List (String × String)) : List (String × String) :=
  b ++ a.filter (fun p => (b.lookup p.1).isNone)

/-- Modelled from the spec: the right-biased merge of two defaults
fragments, field by field: an incoming single-valued field wins when
specified, else the base value is kept; the env map merges key-wise with
the incoming fragment winning (the derive(Merge) implementation is not
among the provided sources; the unit test in manifest.rs pins this
behaviour). -/
def ManifestDefaults.merge (a b : ManifestDefaults) : ManifestDefaults :=
  { imagePref := match b.imagePref with
                 | some v => some v
                 | none => a.imagePref
    chart := match b.chart with
             | some v => some v
             | none => a.chart
    replicaCount := match b.replicaCount with
                    | some v => some v
                    | none => a.replicaCount
    env := mergeEnv a.env b.env }

/-- The slice of ManifestOverrides consulted by the embedded claims:
the publicly-accessible flag, image, image size, version, gateway block,
hosts and the nested defaults fragment. The remaining payload blocks
(ports, probes, workers, volumes and similar) are carried by the source
but are orthogonal to the verified claims and omitted here. -/
structure ManifestOverrides where
  publicly_accessible : Option Bool
  image : Option String
  image_size : Option Nat
  version : Option String
  kong : Option Kong
  hosts : Option (List String)
  defaults : ManifestDefaults
deriving DecidableEq, Repr

/-- Main manifest source, from ManifestSource in
shipcat_filebacked/src/manifest.rs. -/
structure ManifestSource where
  name : Option String
  external : Bool
  disabled : Bool
  regions : List String
  metadata : Option Metadata
  overrides : ManifestOverrides
deriving DecidableEq, Repr

/-- Identity-only projection, from BaseManifest. -/
structure BaseManifest where
  name : String
  regions : List String
  metadata : Metadata
deriving DecidableEq, Repr

/-- Cheap partial resolution, from SimpleManifest. -/
structure SimpleManifest where
  region : String
  enabled : Bool
  external : Bool
  image : Option String
  version : Option String
  kong : Option Kong
  base : BaseManifest
deriving DecidableEq, Repr

/-- ManifestSource::build_name: the service name is required. -/
def ManifestSource.build_name (s : ManifestSource) : Except String String :=
  match s.name with
  | some n => .ok n
  | none => .error "name is required"

/-- ManifestSource::build_metadata: metadata must be present, its team
must match a team of shipcat.conf, and missing support and notification
contacts are back-filled from the team. -/
def ManifestSource.build_metadata (s : ManifestSource) (conf : Config) :
    Except String Metadata :=
  match s.metadata with
  | none => .error "Missing metadata"
  | some md =>
    match conf.teams.find? (fun t => t.name == md.team) with
    | none => .error "The team name must match one of the team names in shipcat.conf"
    | some team =>
      .ok { md with
            support := match md.support with
                       | some su => some su
                       | none => team.support
            notifications := match md.notifications with
                             | some no => some no
                             | none => team.notifications }

/-- ManifestSource::build_image: an explicit image override wins, else
the default image prefix is joined with the service name, else the build
fails. -/
def ManifestSource.build_image (s : ManifestSource) (service : String) :
    Except String String :=
  match s.overrides.image with
  | some image => .ok image
  | none =>
    match s.overrides.defaults.imagePref with
    | some p => .ok (p ++ "/" ++ service)
    | none => .error "Image prefix is not defined"

/-- ManifestSource::build_base. -/
def ManifestSource.build_base (s : ManifestSource) (conf : Config) :
    Except String BaseManifest :=
  match s.build_name with
  | .error e => .error e
  | .ok name =>
    match s.build_metadata conf with
    | .error e => .error e
    | .ok metadata => .ok { name, regions := s.regions, metadata }

/-- ManifestSource::build_kong: the gateway block, when present, passes
through the implicit derivation with the declared hosts. -/
def ManifestSource.build_kong (s : ManifestSource) (service : String) (reg : Region) :
    Option Kong :=
  s.overrides.kong.map (fun k => k.implicits service reg (s.overrides.hosts.getD []))

/-- ManifestSource::build_simple: the partial resolution used for
enumeration; enabled is the conjunction of not disabled and region
membership. -/
def ManifestSource.build_simple (s : ManifestSource) (conf : Config) (reg : Region) :
    Except String SimpleManifest :=
  match s.build_base conf with
  | .error e => .error e
  | .ok base =>
    match s.build_image base.name with
    | .error e => .error e
    | .ok image =>
      .ok { region := reg.name
            enabled := !s.disabled && base.regions.contains reg.name
            external := s.external
            image := some image
            version := s.overrides.version
            kong := s.build_kong base.name reg
            base }

/-- ManifestSource::coalesce_namespace: the team namespace wins only when
the team is found in shipcat.conf and defines one; in every other case
the region namespace is used. -/
def ManifestSource.coalesce_namespace (_s : ManifestSource) (conf : Config) (reg : Region)
    (team_name : String) : String :=
  match conf.teams.find? (fun t => t.name == team_name) with
  | some t =>
    match t.ns with
    | some n => n
    | none => reg.ns
  | none => reg.ns

/-- ManifestSource::build: full resolution into a Manifest. The fields
whose construction needs collaborators outside the provided sources
(configs template reads, kafka and data-handling implicit derivation) are
omitted together with the payload blocks that are copied through
unchanged; every embedded field follows its construction in the source,
in particular imageSize falls back to 512 when no override specifies
it. -/
def ManifestSource.build (s : ManifestSource) (conf : Config) (reg : Region) :
    Except String Manifest :=
  match s.build_simple conf reg with
  | .error e => .error e
  | .ok simple =>
    let name := simple.base.name
    let nspace := s.coalesce_namespace conf reg simple.base.metadata.team
    .ok { name
          publiclyAccessible := s.overrides.publicly_accessible.getD false
          external := simple.external
          disabled := s.disabled
          regions := simple.base.regions
          metadata := some simple.base.metadata
          chart := s.overrides.defaults.chart
          imageSize := match s.overrides.image_size with
                       | some v => some v
                       | none => some 512
          image := simple.image
          version := simple.version
          replicaCount := s.overrides.defaults.replicaCount
          env := s.overrides.defaults.env
          kong := simple.kong
          region := reg.name
          environment := reg.environment
          ns := nspace }

/-- Modelled from the spec: the gateway/public-flag cross-field invariant
check run during full resolution (the Manifest verification code is not
among the provided sources). A manifest with a gateway block whose public
flag differs from the top-level publicly-accessible flag fails
validation; silent correction of either flag is not performed. -/
def verifyGatewayFlag (mf : Manifest) : Except String Unit :=
  match mf.kong with
  | some k =>
    if k.public == mf.publiclyAccessible then .ok ()
    else .error "gateway public flag must equal publiclyAccessible"
  | none => .ok ()

/-- Full resolution followed by the cross-field invariant check, per the
contract of the Manifest Resolution Engine in the spec. -/
def resolveFull (s : ManifestSource) (conf : Config) (reg : Region) :
    Except String Manifest :=
  match s.build conf reg with
  | .error e => .error e
  | .ok mf =>
    match verifyGatewayFlag mf with
    | .error e => .error e
    | .ok _ => .ok mf

/-- C4: namespace coalescing yields the team namespace iff the team is
found in the global team list and defines one; in every other case,
including a team entry without a namespace and an unknown team, the
region namespace is used. -/
theorem C4_namespace_coalescing (s : ManifestSource) (conf : Config) (reg : Region)
    (team_name : String) :
    (∀ t n, conf.teams.find? (fun t => t.name == team_name) = some t → t.ns = some n →
      s.coalesce_namespace conf reg team_name = n) ∧
    (∀ t, conf.teams.find? (fun t => t.name == team_name) = some t → t.ns = none →
      s.coalesce_namespace conf reg team_name = reg.ns) ∧
    (conf.teams.find? (fun t => t.name == team_name) = none →
      s.coalesce_namespace conf reg team_name = reg.ns) := by
  refine ⟨?_, ?_, ?_⟩
  · intro t n hf hn
    simp [ManifestSource.coalesce_namespace, hf, hn]
  · intro t hf hn
    simp [ManifestSource.coalesce_namespace, hf, hn]
  · intro hf
    simp [ManifestSource.coalesce_namespace, hf]

/-- Team fixtures: one team with its own namespace, one without. -/
def teamObs : Team :=
  { name := "observability", ns := some "monitoring"
    support := some "obs-support", notifications := some "obs-notify" }

def teamCore : Team :=
  { name := "core", ns := none, support := some "core-support", notifications := none }

def confFixture : Config := { teams := [teamObs, teamCore] }

def regFixture : Region := { name := "staging", environment := "staging", ns := "apps" }

/-- Manifest source fixture parameterized by the gateway block, the
publicly-accessible flag and the image size override. -/
def srcFixture (kongBlock : Option Kong) (pubAcc : Option Bool) (isize : Option Nat) :
    ManifestSource :=
  { name := some "auth"
    external := false
    disabled := false
    regions := ["staging"]
    metadata := some { team := "core", support := none, notifications := none }
    overrides :=
      { publicly_accessible := pubAcc
        image := some "registry/auth"
        image_size := isize
        version := some "1.2.0"
        kong := kongBlock
        hosts := none
        defaults := { imagePref := none, chart := some "base", replicaCount := some 2, env := [] } } }

/-- Witness for C4: all three code paths at concrete inputs. -/
theorem C4_namespace_coalescing_witness :
    (srcFixture none none none).coalesce_namespace confFixture regFixture "observability"
      = "monitoring" ∧
    (srcFixture none none none).coalesce_namespace confFixture regFixture "core" = "apps" ∧
    (srcFixture none none none).coalesce_namespace confFixture regFixture "nosuch" = "apps" :=
  ⟨(C4_namespace_coalescing (srcFixture none none none) confFixture regFixture
      "observability").1 teamObs "monitoring" (by decide) rfl,
   (C4_namespace_coalescing (srcFixture none none none) confFixture regFixture
      "core").2.1 teamCore (by decide) rfl,
   (C4_namespace_coalescing (srcFixture none none none) confFixture regFixture
      "nosuch").2.2 (by decide)⟩

/-- C10: a successful full build always sets imageSize to the override
value when one is given and to 512 otherwise; it is never none. -/
theorem C10_image_size_default (s : ManifestSource) (conf : Config) (reg : Region)
    (mf : Manifest) :
    s.build conf reg = .ok mf →
    mf.imageSize = some (s.overrides.image_size.getD 512) ∧ mf.imageSize ≠ none := by
  intro hb
  unfold ManifestSource.build at hb
  cases hs : s.build_simple conf reg with
  | error e => rw [hs] at hb; cases hb
  | ok simple =>
    rw [hs] at hb
    have hmf := (Except.ok.inj hb).symm
    subst hmf
    cases hsz : s.overrides.image_size with
    | none => simp [hsz]
    | some v => simp [hsz]

/-- Witness for C10: the fixture with no image size override resolves
with the default image size 512, and with an override of 1024 it keeps
1024. -/
theorem C10_image_size_default_witness :
    (∃ mf, (srcFixture none none none).build confFixture regFixture = .ok mf ∧
      mf.imageSize = some 512 ∧ mf.imageSize ≠ none) ∧
    (∃ mf, (srcFixture none none (some 1024)).build confFixture regFixture = .ok mf ∧
      mf.imageSize = some 1024 ∧ mf.imageSize ≠ none) := by
  constructor
  · obtain ⟨mf, hb⟩ : ∃ mf, (srcFixture none none none).build confFixture regFixture = .ok mf :=
      ⟨_, rfl⟩
    have h := C10_image_size_default (srcFixture none none none) confFixture regFixture mf hb
    exact ⟨mf, hb, by simpa [srcFixture] using h.1, h.2⟩
  · obtain ⟨mf, hb⟩ :
        ∃ mf, (srcFixture none none (some 1024)).build confFixture regFixture = .ok mf :=
      ⟨_, rfl⟩
    have h := C10_image_size_default (srcFixture none none (some 1024)) confFixture regFixture
      mf hb
    exact ⟨mf, hb, by simpa [srcFixture] using h.1, h.2⟩

/-- C7: every manifest surviving full resolution either has no gateway
block or its gateway public flag equals the top-level
publicly-accessible flag; layered inputs producing a mismatch fail
resolution with a validation error rather than being silently
corrected. -/
theorem verifyGatewayFlag_mismatch (mf : Manifest) (k : Kong) (hk : mf.kong = some k)
    (hne : k.public ≠ mf.publiclyAccessible) :
    verifyGatewayFlag mf = Except.error "gateway public flag must equal publiclyAccessible" := by
  have hcond : (k.public == mf.publiclyAccessible) = false := by
    simpa using hne
  unfold verifyGatewayFlag
  rw [hk]
  show (if k.public == mf.publiclyAccessible then (Except.ok () : Except String Unit)
        else Except.error "gateway public flag must equal publiclyAccessible")
      = Except.error "gateway public flag must equal publiclyAccessible"
  rw [hcond]
  simp

theorem C7_gateway_public_flag (s : ManifestSource) (conf : Config) (reg : Region) :
    (∀ mf k, resolveFull s conf reg = .ok mf → mf.kong = some k →
      k.public = mf.publiclyAccessible) ∧
    (∀ mf k, s.build conf reg = .ok mf → mf.kong = some k →
      k.public ≠ mf.publiclyAccessible → ∃ msg, resolveFull s conf reg = .error msg) := by
  constructor
  · intro mf k hres hk
    unfold resolveFull at hres
    cases hb : s.build conf reg with
    | error e => rw [hb] at hres; cases hres
    | ok mf0 =>
      rw [hb] at hres
      have hres2 : (match verifyGatewayFlag mf0 with
                    | Except.error e => (Except.error e : Except String Manifest)
                    | Except.ok _ => Except.ok mf0) = Except.ok mf := hres
      cases hv : verifyGatewayFlag mf0 with
      | error e => rw [hv] at hres2; cases hres2
      | ok u =>
        rw [hv] at hres2
        have hmf : mf0 = mf := Except.ok.inj hres2
        subst hmf
        by_cases hpb : k.public = mf0.publiclyAccessible
        · exact hpb
        · rw [verifyGatewayFlag_mismatch mf0 k hk hpb] at hv
          cases hv
  · intro mf k hb hk hne
    refine ⟨"gateway public flag must equal publiclyAccessible", ?_⟩
    unfold resolveFull
    rw [hb]
    show (match verifyGatewayFlag mf with
          | Except.error e => (Except.error e : Except String Manifest)
          | Except.ok _ => Except.ok mf)
        = Except.error "gateway public flag must equal publiclyAccessible"
    rw [verifyGatewayFlag_mismatch mf k hk hne]

/-- Witness for C7: the fixture carrying a public gateway block together
with the publicly-accessible flag resolves with matching flags, while
the same gateway block without the top-level flag fails resolution. -/
theorem C7_gateway_public_flag_witness :
    (Kong.implicits { public := true, host := none } "auth" regFixture []).public = true ∧
    (∃ msg, resolveFull (srcFixture (some { public := true, host := none }) none none)
        confFixture regFixture = .error msg) := by
  constructor
  · exact (C7_gateway_public_flag
      (srcFixture (some { public := true, host := none }) (some true) none)
      confFixture regFixture).1
      { name := "auth", publiclyAccessible := true, external := false, disabled := false
        regions := ["staging"]
        metadata := some { team := "core", support := some "core-support", notifications := none }
        chart := some "base", imageSize := some 512, image := some "registry/auth"
        version := some "1.2.0", replicaCount := some 2, env := []
        kong := some (Kong.implicits { public := true, host := none } "auth" regFixture [])
        region := "staging", environment := "staging", ns := "apps" }
      (Kong.implicits { public := true, host := none } "auth" regFixture [])
      rfl rfl
  · exact (C7_gateway_public_flag
      (srcFixture (some { public := true, host := none }) none none)
      confFixture regFixture).2
      { name := "auth", publiclyAccessible := false, external := false, disabled := false
        regions := ["staging"]
        metadata := some { team := "core", support := some "core-support", notifications := none }
        chart := some "base", imageSize := some 512, image := some "registry/auth"
        version := some "1.2.0", replicaCount := some 2, env := []
        kong := some (Kong.implicits { public := true, host := none } "auth" regFixture [])
        region := "staging", environment := "staging", ns := "apps" }
      (Kong.implicits { public := true, host := none } "auth" regFixture [])
      rfl rfl (by decide)

/-! ## Authorization (shipcat_filebacked/src/authorization.rs) -/

/-- Source fragment for authorization configuration, from
AuthorizationSource. -/
structure AuthorizationSource where
  allowed_audiences : Option (List String)
  allow_anonymous : Option Bool
  allow_invalid_tokens : Option Bool
  required_scopes : Option (List String)
  allow_cookies : Option Bool
deriving DecidableEq, Repr

/-- Built authorization configuration, from the Authorization struct as
constructed in AuthorizationSource::build. -/
structure Authorization where
  allowed_audiences : List String
  allow_anonymous : Bool
  allow_invalid_tokens : Bool
  required_scopes : List String
  allow_cookies : Bool
deriving DecidableEq, Repr

/-- AuthorizationSource::build: resolved audiences must be non-empty and
allowing invalid credentials requires allowing anonymous access;
unspecified options resolve to their defaults before the checks. -/
def AuthorizationSource.build (s : AuthorizationSource) : Except String Authorization :=
  if (s.allowed_audiences.getD []).isEmpty then
    .error "allowed_audiences must contain at least one audience"
  else if s.allow_invalid_tokens.getD false && !(s.allow_anonymous.getD false) then
    .error "allow_invalid_tokens requires allow_anonymous"
  else
    .ok { allowed_audiences := s.allowed_audiences.getD []
          allow_anonymous := s.allow_anonymous.getD false
          allow_invalid_tokens := s.allow_invalid_tokens.getD false
          required_scopes := s.required_scopes.getD []
          allow_cookies := s.allow_cookies.getD false }

/-- C6: building fails when invalid credentials are allowed without
anonymous access, and when the resolved audience list is empty; every
successfully built Authorization has a non-empty audience list and
satisfies that allowing invalid credentials implies allowing anonymous
access. -/
theorem C6_authorization_invariant (s : AuthorizationSource) :
    (s.allow_invalid_tokens.getD false = true → s.allow_anonymous.getD false = false →
      ∃ msg, s.build = .error msg) ∧
    (s.allowed_audiences.getD [] = [] → ∃ msg, s.build = .error msg) ∧
    (∀ a, s.build = .ok a →
      a.allowed_audiences ≠ [] ∧ (a.allow_invalid_tokens = true → a.allow_anonymous = true)) := by
  refine ⟨?_, ?_, ?_⟩
  · intro hinv hanon
    unfold AuthorizationSource.build
    by_cases hemp : (s.allowed_audiences.getD []).isEmpty
    · exact ⟨"allowed_audiences must contain at least one audience", by simp [hemp]⟩
    · refine ⟨"allow_invalid_tokens requires allow_anonymous", ?_⟩
      simp [hemp, hinv, hanon]
  · intro haud
    have hemp : (s.allowed_audiences.getD []).isEmpty = true := by
      simp [haud]
    exact ⟨"allowed_audiences must contain at least one audience",
      by unfold AuthorizationSource.build; simp [hemp]⟩
  · intro a hb
    unfold AuthorizationSource.build at hb
    split_ifs at hb with h1 h2
    · have ha := Except.ok.inj hb
      subst ha
      constructor
      · intro hnil
        have hnil2 : s.allowed_audiences.getD [] = [] := hnil
        exact h1 (by simp [hnil2])
      · intro hinv
        have hinv2 : s.allow_invalid_tokens.getD false = true := hinv
        show s.allow_anonymous.getD false = true
        by_contra hanon
        apply h2
        simp only [Bool.not_eq_true] at hanon
        rw [hinv2, hanon]
        rfl

/-- Witness for C6: a source allowing invalid credentials without
anonymous access fails, a source without audiences fails, and a
well-formed source builds with the invariants holding. -/
theorem C6_authorization_invariant_witness :
    (∃ msg, AuthorizationSource.build
      { allowed_audiences := some ["svc"], allow_anonymous := some false
        allow_invalid_tokens := some true, required_scopes := none, allow_cookies := none }
      = .error msg) ∧
    (∃ msg, AuthorizationSource.build
      { allowed_audiences := none, allow_anonymous := some true
        allow_invalid_tokens := none, required_scopes := none, allow_cookies := none }
      = .error msg) ∧
    (({ allowed_audiences := ["svc"], allow_anonymous := true, allow_invalid_tokens := true
        required_scopes := [], allow_cookies := false } : Authorization).allowed_audiences ≠ [] ∧
     (({ allowed_audiences := ["svc"], allow_anonymous := true, allow_invalid_tokens := true
         required_scopes := [], allow_cookies := false } : Authorization).allow_invalid_tokens
          = true →
      ({ allowed_audiences := ["svc"], allow_anonymous := true, allow_invalid_tokens := true
         required_scopes := [], allow_cookies := false } : Authorization).allow_anonymous
          = true)) :=
  ⟨(C6_authorization_invariant
      { allowed_audiences := some ["svc"], allow_anonymous := some false
        allow_invalid_tokens := some true, required_scopes := none
        allow_cookies := none }).1 rfl rfl,
   (C6_authorization_invariant
      { allowed_audiences := none, allow_anonymous := some true
        allow_invalid_tokens := none, required_scopes := none
        allow_cookies := none }).2.1 rfl,
   (C6_authorization_invariant
      { allowed_audiences := some ["svc"], allow_anonymous := some true
        allow_invalid_tokens := some true, required_scopes := none
        allow_cookies := none }).2.2
     { allowed_audiences := ["svc"], allow_anonymous := true, allow_invalid_tokens := true
       required_scopes := [], allow_cookies := false } rfl⟩

/-! ## Batch jobs (shipcat_filebacked/src/container/job.rs) -/

/-- Volume claim of a batch job, modelled with a representative field
(the JobVolumeClaim struct is imported by the sources but not defined in
them; no claim depends on its contents). -/
structure JobVolumeClaim where
  mountPath : String
deriving DecidableEq, Repr

/-- Restart policy of a batch job, modelled from its use site (its struct
is imported but not defined in the sources; no claim depends on which
variant is the default). -/
inductive RestartPolicy where
  | Never
  | OnFailure
deriving DecidableEq, Repr, Inhabited

/-- Built container, from the Container struct as consulted by
JobSource::build: the optional explicit image and version. -/
structure Container where
  image : Option String
  version : Option String
deriving DecidableEq, Repr

/-- Built batch job, from the Job struct as constructed in
JobSource::build. -/
structure Job where
  container : Container
  volumeClaim : Option JobVolumeClaim
  timeout : Option Nat
  restartPolicy : RestartPolicy
deriving DecidableEq, Repr

/-- Batch job source, from JobSource (the flattened ContainerSource and
its build, which are outside the provided sources, are abstracted as the
result of the inner container build passed to JobSource.build). -/
structure JobSource where
  volume_claim : Option JobVolumeClaim
  timeout : Option Nat
  restart_policy : Option RestartPolicy
deriving DecidableEq, Repr

/-- JobSource::build: the inner container build result is propagated,
then an explicit image without a version, or a version without an image,
fails with a descriptive error; otherwise the Job is assembled. -/
def JobSource.build (s : JobSource) (containerResult : Except String Container) :
    Except String Job :=
  match containerResult with
  | .error e => .error e
  | .ok container =>
    match container.image, container.version with
    | some _, none => .error "Cannot specify image without specifying version in CronJob"
    | none, some _ => .error "Cannot specify the version without specifying an image in CronJob"
    | _, _ =>
      .ok { container
            volumeClaim := s.volume_claim
            timeout := s.timeout
            restartPolicy := s.restart_policy.getD default }

/-- C9: building a batch job fails with a descriptive error when an
explicit image is specified without a version or a version without an
image, and succeeds with respect to this check when both or neither are
specified. -/
theorem C9_job_image_version_pairing (s : JobSource) (c : Container) :
    (∀ i, c.image = some i → c.version = none →
      s.build (.ok c) = .error "Cannot specify image without specifying version in CronJob") ∧
    (∀ v, c.version = some v → c.image = none →
      s.build (.ok c) = .error "Cannot specify the version without specifying an image in CronJob") ∧
    (c.image = none → c.version = none → ∃ j, s.build (.ok c) = .ok j) ∧
    (∀ i v, c.image = some i → c.version = some v → ∃ j, s.build (.ok c) = .ok j) := by
  refine ⟨?_, ?_, ?_, ?_⟩
  · intro i hi hv
    simp [JobSource.build, hi, hv]
  · intro v hv hi
    simp [JobSource.build, hi, hv]
  · intro hi hv
    refine ⟨{ container := c, volumeClaim := s.volume_claim, timeout := s.timeout
              restartPolicy := s.restart_policy.getD default }, ?_⟩
    simp [JobSource.build, hi, hv]
  · intro i v hi hv
    refine ⟨{ container := c, volumeClaim := s.volume_claim, timeout := s.timeout
              restartPolicy := s.restart_policy.getD default }, ?_⟩
    simp [JobSource.build, hi, hv]

/-- Witness for C9: the four image/version combinations at concrete
containers. -/
theorem C9_job_image_version_pairing_witness :
    JobSource.build { volume_claim := none, timeout := none, restart_policy := none }
        (.ok { image := some "registry/batch", version := none })
      = .error "Cannot specify image without specifying version in CronJob" ∧
    JobSource.build { volume_claim := none, timeout := none, restart_policy := none }
        (.ok { image := none, version := some "1.0.0" })
      = .error "Cannot specify the version without specifying an image in CronJob" ∧
    (∃ j, JobSource.build { volume_claim := none, timeout := none, restart_policy := none }
        (.ok { image := none, version := none }) = .ok j) ∧
    (∃ j, JobSource.build { volume_claim := none, timeout := none, restart_policy := none }
        (.ok { image := some "registry/batch", version := some "1.0.0" }) = .ok j) :=
  ⟨(C9_job_image_version_pairing
      { volume_claim := none, timeout := none, restart_policy := none }
      { image := some "registry/batch", version := none }).1 "registry/batch" rfl rfl,
   (C9_job_image_version_pairing
      { volume_claim := none, timeout := none, restart_policy := none }
      { image := none, version := some "1.0.0" }).2.1 "1.0.0" rfl rfl,
   (C9_job_image_version_pairing
      { volume_claim := none, timeout := none, restart_policy := none }
      { image := none, version := none }).2.2.1 rfl rfl,
   (C9_job_image_version_pairing
      { volume_claim := none, timeout := none, restart_policy := none }
      { image := some "registry/batch", version := some "1.0.0" }).2.2.2
     "registry/batch" "1.0.0" rfl rfl⟩

/-! ## Merge primitive (derive(Merge) on ManifestDefaults) -/

theorem lookup_append (l1 l2 : List (String × String)) (k : String) :
    (l1 ++ l2).lookup k = match l1.lookup k with
                          | some v => some v
                          | none => l2.lookup k := by
  induction l1 with
  | nil => simp [List.lookup]
  | cons p rest ih =>
    obtain ⟨k0, v0⟩ := p
    cases h : (k == k0)
    · simpa [List.lookup, h] using ih
    · simp [List.lookup, h]

theorem lookup_filter_key (l : List (String × String)) (f : String → Bool) (k : String) :
    (l.filter (fun p => f p.1)).lookup k = if f k then l.lookup k else none := by
  induction l with
  | nil => cases hf : f k <;> simp [List.lookup, hf]
  | cons p rest ih =>
    obtain ⟨k0, v0⟩ := p
    by_cases hk : k = k0
    · subst hk
      cases hf : f k
      · simpa [List.filter_cons, hf] using ih
      · simp [List.filter_cons, hf, List.lookup]
    · have hbk : (k == k0) = false := by
        simpa using hk
      cases hf : f k0
      · simpa [List.filter_cons, hf, List.lookup, hbk] using ih
      · simpa [List.filter_cons, hf, List.lookup, hbk] using ih

theorem mergeEnv_lookup (a b : List (String × String)) (k : String) :
    (mergeEnv a b).lookup k = match b.lookup k with
                              | some v => some v
                              | none => a.lookup k := by
  unfold mergeEnv
  rw [lookup_append]
  cases hb : b.lookup k with
  | some v => simp
  | none =>
    have hfk := lookup_filter_key a (fun x => (b.lookup x).isNone) k
    rw [hb] at hfk
    simpa using hfk

/-- C5: the merge of two defaults fragments is right-biased field by
field: the incoming fragment wins on every single-valued field it
specifies and the base value is kept where it does not, and the env map
merges key-wise with the incoming entry winning on key collision. -/
theorem C5_merge_right_biased (a b : ManifestDefaults) :
    ((∀ v, b.imagePref = some v → (a.merge b).imagePref = some v) ∧
     (b.imagePref = none → (a.merge b).imagePref = a.imagePref)) ∧
    ((∀ v, b.chart = some v → (a.merge b).chart = some v) ∧
     (b.chart = none → (a.merge b).chart = a.chart)) ∧
    ((∀ v, b.replicaCount = some v → (a.merge b).replicaCount = some v) ∧
     (b.replicaCount = none → (a.merge b).replicaCount = a.replicaCount)) ∧
    (∀ k, (a.merge b).env.lookup k = match b.env.lookup k with
                                     | some v => some v
                                     | none => a.env.lookup k) := by
  refine ⟨⟨?_, ?_⟩, ⟨?_, ?_⟩, ⟨?_, ?_⟩, ?_⟩
  · intro v hv
    simp [ManifestDefaults.merge, hv]
  · intro hv
    simp [ManifestDefaults.merge, hv]
  · intro v hv
    simp [ManifestDefaults.merge, hv]
  · intro hv
    simp [ManifestDefaults.merge, hv]
  · intro v hv
    simp [ManifestDefaults.merge, hv]
  · intro hv
    simp [ManifestDefaults.merge, hv]
  · intro k
    exact mergeEnv_lookup a.env b.env k

/-- The two fragments of the merge unit test in
shipcat_filebacked/src/manifest.rs. -/
def mergeTestA : ManifestDefaults :=
  { imagePref := some "alpha", chart := none, replicaCount := some 1
    env := [("a", "default-a"), ("b", "default-b")] }

def mergeTestB : ManifestDefaults :=
  { imagePref := some "beta", chart := some "default", replicaCount := none
    env := [("b", "override-b"), ("c", "override-c")] }

/-- Witness for C5: the merge unit test of manifest.rs, recovered from
the theorem: the incoming image override and chart win, the unspecified
replica count keeps the base value, and the merged env map pairs a to
default-a, b to override-b and c to override-c. -/
theorem C5_merge_right_biased_witness :
    (mergeTestA.merge mergeTestB).imagePref = some "beta" ∧
    (mergeTestA.merge mergeTestB).chart = some "default" ∧
    (mergeTestA.merge mergeTestB).replicaCount = some 1 ∧
    (mergeTestA.merge mergeTestB).env.lookup "a" = some "default-a" ∧
    (mergeTestA.merge mergeTestB).env.lookup "b" = some "override-b" ∧
    (mergeTestA.merge mergeTestB).env.lookup "c" = some "override-c" :=
  ⟨(C5_merge_right_biased mergeTestA mergeTestB).1.1 "beta" rfl,
   (C5_merge_right_biased mergeTestA mergeTestB).2.1.1 "default" rfl,
   ((C5_merge_right_biased mergeTestA mergeTestB).2.2.1.2 rfl).trans rfl,
   ((C5_merge_right_biased mergeTestA mergeTestB).2.2.2 "a").trans rfl,
   ((C5_merge_right_biased mergeTestA mergeTestB).2.2.2 "b").trans rfl,
   ((C5_merge_right_biased mergeTestA mergeTestB).2.2.2 "c").trans rfl⟩

end Shipcat
